import Mathlib

/-!
Verification of the Chat Panel Controller (`src/script.js`).

The source attaches a click listener to a send button and a keypress
listener to a text input; `sendMessage` trims the input value, and when
the trimmed text is non-empty it appends a user message bubble to the
chat window, scrolls to the bottom, clears the input, and schedules a
1000 ms timer that appends a simulated assistant response (capturing the
trimmed text in its closure) and scrolls again.

We embed the DOM-visible state as a record: the chat window's list of
message bubbles, the input field's value, the panel's scroll offset and
the list of pending timers (in scheduling order, each carrying its delay
and the text captured by its closure).
-/

namespace EduMentor

/-- The role of a message bubble: the source distinguishes them by the
class names `user-message` and `ai-message`. -/
inductive Role
  | user
  | assistant
deriving DecidableEq, Repr

/-- The second class name of a message div (`script.js` lines 18 and 31). -/
def Role.className : Role → String
  | .user => "message user-message"
  | .assistant => "message ai-message"

/-- One message bubble appended to the chat window: its role and the text
interpolated into its inner span (`script.js` lines 17-20 and 30-33). -/
structure Message where
  role : Role
  text : String
deriving DecidableEq, Repr

/-- A pending `setTimeout` callback (`script.js` lines 29-35): the fixed
delay and the `userText` captured by the callback's closure. -/
structure PendingTimer where
  delay : Nat
  capturedText : String
deriving DecidableEq, Repr

/-- The DOM-visible state of the widget: the chat window's children, the
input field's value, the panel's scroll offset, and the pending timers in
scheduling order. -/
structure ChatState where
  chatWindow : List Message
  userInput : String
  scrollTop : Nat
  timers : List PendingTimer
deriving DecidableEq, Repr

/-- The JavaScript `WhiteSpace`/`LineTerminator` character classes that
`String.prototype.trim` removes: space, tab, LF, VT, FF, CR, NBSP, BOM,
the Unicode space separators, and the line/paragraph separators. -/
def isJsWhitespace (c : Char) : Bool :=
  c = ' ' || c = '\t' || c = '\n' || c.val = 0x0b || c.val = 0x0c ||
  c = '\r' || c.val = 0xa0 || c.val = 0xfeff || c.val = 0x1680 ||
  (0x2000 ≤ c.val && c.val ≤ 0x200a) || c.val = 0x2028 || c.val = 0x2029 ||
  c.val = 0x202f || c.val = 0x205f || c.val = 0x3000

/-- JavaScript `String.prototype.trim`: remove leading and trailing
whitespace (embedded over the string's character list). -/
def jsTrim (s : String) : String :=
  ⟨((s.data.dropWhile isJsWhitespace).reverse.dropWhile isJsWhitespace).reverse⟩

/-- The panel's `scrollHeight`: the content height grows with the number
of appended message bubbles. -/
def scrollHeight (msgs : List Message) : Nat :=
  msgs.length

/-- The maximum scroll offset of the panel in a given state. -/
def maxScroll (st : ChatState) : Nat :=
  scrollHeight st.chatWindow

/-- The fixed assistant-response template (`script.js` line 32). -/
def aiResponseText (userText : String) : String :=
  "This is a simulated AI response to \"" ++ userText ++ "\"."

/-- The `innerHTML` string assigned to a message div (`script.js`
lines 19 and 32): the text is interpolated unescaped into a span. -/
def messageInnerHTML (text : String) : String :=
  "<span class=\"message-text\">" ++ text ++ "</span>"

/-- `sendMessage` (`script.js` lines 13-37): trim the input value; if the
trimmed text is non-empty (JS truthiness of a string), append a user
message with that text, scroll to the bottom, clear the input field, and
schedule a 1000 ms timer whose closure captures the trimmed text.  An
empty trimmed text is a silent no-op. -/
def sendMessage (st : ChatState) : ChatState :=
  let userText := jsTrim st.userInput
  if userText = "" then
    st
  else
    let msgs := st.chatWindow ++ [⟨Role.user, userText⟩]
    { chatWindow := msgs
      userInput := ""
      scrollTop := scrollHeight msgs
      timers := st.timers ++ [⟨1000, userText⟩] }

/-- The expiry of the pending timer at index `i` (`script.js`
lines 29-35): append an assistant message whose text is the fixed
template applied to the closure-captured text, scroll to the bottom, and
retire the timer.  An out-of-range index leaves the state unchanged. -/
def fireTimer (st : ChatState) (i : Nat) : ChatState :=
  match st.timers[i]? with
  | none => st
  | some t =>
    let msgs := st.chatWindow ++ [⟨Role.assistant, aiResponseText t.capturedText⟩]
    { chatWindow := msgs
      userInput := st.userInput
      scrollTop := scrollHeight msgs
      timers := st.timers.eraseIdx i }

/-- The user typing into the input field: replaces its value. -/
def setInput (st : ChatState) (s : String) : ChatState :=
  { st with userInput := s }

/-- A UI event the controller listens to (`script.js` lines 6-11):
a click on the send button, or a key event on the input field. -/
inductive UIEvent
  | click
  | keyEvent (key : String)

/-- Event dispatch per the registered listeners (`script.js` lines 6-11):
a click invokes `sendMessage`; a key event invokes `sendMessage` exactly
when its key equals `"Enter"`. -/
def dispatch (st : ChatState) (e : UIEvent) : ChatState :=
  match e with
  | .click => sendMessage st
  | .keyEvent k => if k = "Enter" then sendMessage st else st

/-- The state when the page has just loaded: no messages, empty input,
scroll offset zero, no pending timers. -/
def initialState : ChatState :=
  { chatWindow := [], userInput := "", scrollTop := 0, timers := [] }

/-- One step of the event loop: a UI event, a timer expiry, or the user
typing into the input field. -/
inductive Step : ChatState → ChatState → Prop
  | event (st : ChatState) (e : UIEvent) : Step st (dispatch st e)
  | fire (st : ChatState) (i : Nat) : Step st (fireTimer st i)
  | typeInput (st : ChatState) (s : String) : Step st (setInput st s)

/-- The states reachable from the freshly loaded page. -/
inductive Reachable : ChatState → Prop
  | init : Reachable initialState
  | step {st st' : ChatState} : Reachable st → Step st st' → Reachable st'

/-- The number of messages of a given role in the chat window. -/
def countRole (r : Role) (msgs : List Message) : Nat :=
  (msgs.filter (fun m => m.role == r)).length

/-- Browser-side parsing of an `innerHTML` assignment, at the granularity
these claims need: the text content of the parsed fragment is the markup
with every `<...>` tag removed (the boolean tracks being inside a tag). -/
def stripTags : List Char → Bool → List Char
  | [], _ => []
  | c :: rest, true =>
    if c = '>' then stripTags rest false else stripTags rest true
  | c :: rest, false =>
    if c = '<' then stripTags rest true else c :: stripTags rest false

/-- The text content of a message div after its `innerHTML` assignment. -/
def textContent (html : String) : String :=
  ⟨stripTags html.data false⟩

/-- The messages one submission appends overall: the user message added
by `sendMessage` together with the assistant message added when the timer
that very submission scheduled fires. -/
def submitAppends (st : ChatState) : List Message :=
  ((fireTimer (sendMessage st) st.timers.length).chatWindow).drop
    st.chatWindow.length

@[simp] theorem setInput_chatWindow (st : ChatState) (s : String) :
    (setInput st s).chatWindow = st.chatWindow := rfl

@[simp] theorem setInput_timers (st : ChatState) (s : String) :
    (setInput st s).timers = st.timers := rfl

@[simp] theorem setInput_userInput (st : ChatState) (s : String) :
    (setInput st s).userInput = s := rfl

@[simp] theorem setInput_scrollTop (st : ChatState) (s : String) :
    (setInput st s).scrollTop = st.scrollTop := rfl

/-- The result of `sendMessage` on a non-empty trimmed input, spelled out. -/
theorem sendMessage_of_ne (st : ChatState) (h : jsTrim st.userInput ≠ "") :
    sendMessage st =
      { chatWindow := st.chatWindow ++ [⟨Role.user, jsTrim st.userInput⟩]
        userInput := ""
        scrollTop := scrollHeight (st.chatWindow ++ [⟨Role.user, jsTrim st.userInput⟩])
        timers := st.timers ++ [⟨1000, jsTrim st.userInput⟩] } := by
  simp [sendMessage, h]

/-- The result of firing a pending timer, spelled out. -/
theorem fireTimer_of_getElem? (st : ChatState) (i : Nat) (t : PendingTimer)
    (h : st.timers[i]? = some t) :
    fireTimer st i =
      { chatWindow := st.chatWindow ++ [⟨Role.assistant, aiResponseText t.capturedText⟩]
        userInput := st.userInput
        scrollTop := scrollHeight
          (st.chatWindow ++ [⟨Role.assistant, aiResponseText t.capturedText⟩])
        timers := st.timers.eraseIdx i } := by
  simp [fireTimer, h]

/-- **C1.** For every input whose whitespace-trimmed form `S` is non-empty,
`sendMessage` appends exactly one user-role message whose text is `S` and
schedules exactly one 1000 ms timer capturing `S`; when that timer fires it
appends exactly one assistant-role message whose text is exactly
`This is a simulated AI response to "S".` and retires itself, so the
submission appends no other messages. -/
theorem sendMessage_appends_user_then_assistant (st : ChatState)
    (h : jsTrim st.userInput ≠ "") :
    (sendMessage st).chatWindow
        = st.chatWindow ++ [⟨Role.user, jsTrim st.userInput⟩]
    ∧ (sendMessage st).timers = st.timers ++ [⟨1000, jsTrim st.userInput⟩]
    ∧ (fireTimer (sendMessage st) st.timers.length).chatWindow
        = st.chatWindow ++ [⟨Role.user, jsTrim st.userInput⟩,
            ⟨Role.assistant, aiResponseText (jsTrim st.userInput)⟩]
    ∧ (fireTimer (sendMessage st) st.timers.length).timers = st.timers := by
  have hs := sendMessage_of_ne st h
  have hget : (sendMessage st).timers[st.timers.length]?
      = some ⟨1000, jsTrim st.userInput⟩ := by
    rw [hs]
    exact List.getElem?_concat_length _ _
  have hf := fireTimer_of_getElem? (sendMessage st) st.timers.length _ hget
  refine ⟨by rw [hs], by rw [hs], ?_, ?_⟩
  · rw [hf, hs]
    simp [aiResponseText]
  · rw [hf, hs]
    simp [List.eraseIdx_append_of_length_le (Nat.le_refl _)]

theorem sendMessage_appends_user_then_assistant_witness :
    jsTrim "  hello " ≠ ""
    ∧ ((sendMessage ⟨[], "  hello ", 0, []⟩).chatWindow
          = [] ++ [⟨Role.user, jsTrim "  hello "⟩]
      ∧ (sendMessage ⟨[], "  hello ", 0, []⟩).timers
          = [] ++ [⟨1000, jsTrim "  hello "⟩]
      ∧ (fireTimer (sendMessage ⟨[], "  hello ", 0, []⟩)
            (List.length ([] : List PendingTimer))).chatWindow
          = [] ++ [⟨Role.user, jsTrim "  hello "⟩,
              ⟨Role.assistant, aiResponseText (jsTrim "  hello ")⟩]
      ∧ (fireTimer (sendMessage ⟨[], "  hello ", 0, []⟩)
            (List.length ([] : List PendingTimer))).timers = []) :=
  ⟨by decide, sendMessage_appends_user_then_assistant ⟨[], "  hello ", 0, []⟩ (by decide)⟩

/-- **C2.** For every input that is empty or whitespace-only after
trimming, `sendMessage` is a silent no-op: the whole state — chat window,
input field, scroll offset and pending timers — is unchanged. -/
theorem sendMessage_empty_noop (st : ChatState) (h : jsTrim st.userInput = "") :
    sendMessage st = st := by
  simp [sendMessage, h]

theorem sendMessage_empty_noop_witness :
    jsTrim "   " = "" ∧ sendMessage ⟨[], "   ", 0, []⟩ = ⟨[], "   ", 0, []⟩ :=
  ⟨by decide, sendMessage_empty_noop ⟨[], "   ", 0, []⟩ (by decide)⟩

/-- The combined effect of two back-to-back submissions followed by the
two timer expiries, spelled out. -/
theorem double_submission_effects (st : ChatState) (a b : String)
    (ha : jsTrim st.userInput = a) (ha' : a ≠ "")
    (hb : jsTrim b = b) (hb' : b ≠ "") :
    (sendMessage (setInput (sendMessage st) b)).chatWindow
        = st.chatWindow ++ [⟨Role.user, a⟩, ⟨Role.user, b⟩]
    ∧ (sendMessage (setInput (sendMessage st) b)).timers
        = st.timers ++ [⟨1000, a⟩, ⟨1000, b⟩]
    ∧ (fireTimer (sendMessage (setInput (sendMessage st) b))
          st.timers.length).chatWindow
        = st.chatWindow ++ [⟨Role.user, a⟩, ⟨Role.user, b⟩,
            ⟨Role.assistant, aiResponseText a⟩]
    ∧ (fireTimer (fireTimer (sendMessage (setInput (sendMessage st) b))
          st.timers.length) st.timers.length).chatWindow
        = st.chatWindow ++ [⟨Role.user, a⟩, ⟨Role.user, b⟩,
            ⟨Role.assistant, aiResponseText a⟩,
            ⟨Role.assistant, aiResponseText b⟩] := by
  have hs1 : sendMessage st =
      { chatWindow := st.chatWindow ++ [⟨Role.user, a⟩]
        userInput := ""
        scrollTop := scrollHeight (st.chatWindow ++ [⟨Role.user, a⟩])
        timers := st.timers ++ [⟨1000, a⟩] } := by
    rw [sendMessage_of_ne st (by rw [ha]; exact ha'), ha]
  have hs2 : sendMessage (setInput (sendMessage st) b) =
      { chatWindow := st.chatWindow ++ [⟨Role.user, a⟩, ⟨Role.user, b⟩]
        userInput := ""
        scrollTop := scrollHeight
          (st.chatWindow ++ [⟨Role.user, a⟩, ⟨Role.user, b⟩])
        timers := st.timers ++ [⟨1000, a⟩, ⟨1000, b⟩] } := by
    rw [hs1]
    rw [sendMessage_of_ne _ (by simpa [setInput, hb] using hb')]
    simp [setInput, hb]
  have hget1 : (sendMessage (setInput (sendMessage st) b)).timers[st.timers.length]?
      = some ⟨1000, a⟩ := by
    rw [hs2]
    rw [List.getElem?_append_right (Nat.le_refl _)]
    simp
  have hf1 := fireTimer_of_getElem? _ st.timers.length _ hget1
  have herase1 : (st.timers ++ [(⟨1000, a⟩ : PendingTimer), ⟨1000, b⟩]).eraseIdx
        st.timers.length
      = st.timers ++ [(⟨1000, b⟩ : PendingTimer)] := by
    rw [List.eraseIdx_append_of_length_le (Nat.le_refl _)]
    simp
  have hget2 : (fireTimer (sendMessage (setInput (sendMessage st) b))
        st.timers.length).timers[st.timers.length]? = some ⟨1000, b⟩ := by
    rw [hf1, hs2]
    simp only [herase1]
    exact List.getElem?_concat_length _ _
  have hf2 := fireTimer_of_getElem? _ st.timers.length _ hget2
  refine ⟨by rw [hs2], by rw [hs2], ?_, ?_⟩
  · rw [hf1, hs2]
    simp
  · rw [hf2, hf1, hs2]
    simp

/-- **C3.** If texts trimming to `a` and then `b` are submitted before
either scheduled timer fires, the chat window shows user `a` then user
`b`, two timers are pending (capturing `a` and `b` respectively), and
each timer, when it fires, appends the assistant response for its own
originating submission — the later submission does not overwrite the text
captured by the earlier pending timer. -/
theorem rapid_double_submission (st : ChatState) (a b : String)
    (ha : jsTrim st.userInput = a) (ha' : a ≠ "")
    (hb : jsTrim b = b) (hb' : b ≠ "") :
    (sendMessage (setInput (sendMessage st) b)).chatWindow
        = st.chatWindow ++ [⟨Role.user, a⟩, ⟨Role.user, b⟩]
    ∧ (sendMessage (setInput (sendMessage st) b)).timers
        = st.timers ++ [⟨1000, a⟩, ⟨1000, b⟩]
    ∧ (fireTimer (sendMessage (setInput (sendMessage st) b))
          st.timers.length).chatWindow
        = st.chatWindow ++ [⟨Role.user, a⟩, ⟨Role.user, b⟩,
            ⟨Role.assistant, aiResponseText a⟩]
    ∧ (fireTimer (fireTimer (sendMessage (setInput (sendMessage st) b))
          st.timers.length) st.timers.length).chatWindow
        = st.chatWindow ++ [⟨Role.user, a⟩, ⟨Role.user, b⟩,
            ⟨Role.assistant, aiResponseText a⟩,
            ⟨Role.assistant, aiResponseText b⟩] :=
  double_submission_effects st a b ha ha' hb hb'

theorem rapid_double_submission_witness :
    (jsTrim "a" = "a" ∧ ("a" : String) ≠ ""
      ∧ jsTrim "b" = "b" ∧ ("b" : String) ≠ "")
    ∧ ((sendMessage (setInput (sendMessage ⟨[], "a", 0, []⟩) "b")).chatWindow
          = [] ++ [⟨Role.user, "a"⟩, ⟨Role.user, "b"⟩]
      ∧ (sendMessage (setInput (sendMessage ⟨[], "a", 0, []⟩) "b")).timers
          = [] ++ [⟨1000, "a"⟩, ⟨1000, "b"⟩]
      ∧ (fireTimer (sendMessage (setInput (sendMessage ⟨[], "a", 0, []⟩) "b"))
            (List.length ([] : List PendingTimer))).chatWindow
          = [] ++ [⟨Role.user, "a"⟩, ⟨Role.user, "b"⟩,
              ⟨Role.assistant, aiResponseText "a"⟩]
      ∧ (fireTimer (fireTimer (sendMessage (setInput (sendMessage ⟨[], "a", 0, []⟩) "b"))
            (List.length ([] : List PendingTimer)))
            (List.length ([] : List PendingTimer))).chatWindow
          = [] ++ [⟨Role.user, "a"⟩, ⟨Role.user, "b"⟩,
              ⟨Role.assistant, aiResponseText "a"⟩,
              ⟨Role.assistant, aiResponseText "b"⟩]) :=
  ⟨⟨by decide, by decide, by decide, by decide⟩,
    by
      have h := rapid_double_submission ⟨[], "a", 0, []⟩ "a" "b"
        (by decide) (by decide) (by decide) (by decide)
      simpa using h⟩

/-- Internal form of the no-op case of `sendMessage`. -/
theorem sendMessage_of_eq (st : ChatState) (h : jsTrim st.userInput = "") :
    sendMessage st = st := by
  simp [sendMessage, h]

/-- Firing an out-of-range timer index leaves the state unchanged. -/
theorem fireTimer_of_none (st : ChatState) (i : Nat)
    (h : st.timers[i]? = none) : fireTimer st i = st := by
  simp [fireTimer, h]

/-- **C4.** A click on the send control and a key event whose key equals
`"Enter"` on the input field both invoke `sendMessage` (which reads the
input field's current value); a key event with any other key leaves the
state untouched. -/
theorem trigger_bindings (st : ChatState) (k : String) :
    dispatch st UIEvent.click = sendMessage st
    ∧ dispatch st (UIEvent.keyEvent "Enter") = sendMessage st
    ∧ (k ≠ "Enter" → dispatch st (UIEvent.keyEvent k) = st) := by
  refine ⟨rfl, by simp [dispatch], fun hk => by simp [dispatch, hk]⟩

theorem trigger_bindings_witness :
    dispatch ⟨[], "hi", 0, []⟩ UIEvent.click = sendMessage ⟨[], "hi", 0, []⟩
    ∧ dispatch ⟨[], "hi", 0, []⟩ (UIEvent.keyEvent "Enter")
        = sendMessage ⟨[], "hi", 0, []⟩
    ∧ dispatch ⟨[], "hi", 0, []⟩ (UIEvent.keyEvent "a") = ⟨[], "hi", 0, []⟩ :=
  ⟨(trigger_bindings ⟨[], "hi", 0, []⟩ "a").1,
    (trigger_bindings ⟨[], "hi", 0, []⟩ "a").2.1,
    (trigger_bindings ⟨[], "hi", 0, []⟩ "a").2.2 (by decide)⟩

/-- `sendMessage` never discards messages: the old chat window is a
prefix of the new one. -/
theorem chatWindow_prefix_sendMessage (st : ChatState) :
    st.chatWindow <+: (sendMessage st).chatWindow := by
  by_cases h : jsTrim st.userInput = ""
  · rw [sendMessage_of_eq st h]
  · rw [sendMessage_of_ne st h]
    exact List.prefix_append _ _

/-- A timer expiry never discards messages: the old chat window is a
prefix of the new one. -/
theorem chatWindow_prefix_fireTimer (st : ChatState) (i : Nat) :
    st.chatWindow <+: (fireTimer st i).chatWindow := by
  cases h : st.timers[i]? with
  | none => rw [fireTimer_of_none st i h]
  | some t =>
    rw [fireTimer_of_getElem? st i t h]
    exact List.prefix_append _ _

/-- **C5.** The panel is append-only: every step of the event loop
(submit via any UI event, every timer expiry, and typing) preserves all
previously appended messages — their texts, their roles, and their
relative order — as a prefix of the new chat window, so displayed order
equals creation order and no message is mutated or deleted. -/
theorem panel_append_only (st st' : ChatState) (h : Step st st') :
    st.chatWindow <+: st'.chatWindow := by
  cases h with
  | event e =>
    cases e with
    | click => exact chatWindow_prefix_sendMessage st
    | keyEvent k =>
      by_cases hk : k = "Enter"
      · subst hk
        exact chatWindow_prefix_sendMessage st
      · simp [dispatch, hk]
  | fire i => exact chatWindow_prefix_fireTimer st i
  | typeInput s => exact List.prefix_refl _

theorem panel_append_only_witness :
    Step ⟨[⟨Role.user, "x"⟩], "y", 1, []⟩
        (dispatch ⟨[⟨Role.user, "x"⟩], "y", 1, []⟩ UIEvent.click)
    ∧ [(⟨Role.user, "x"⟩ : Message)]
        <+: (dispatch ⟨[⟨Role.user, "x"⟩], "y", 1, []⟩ UIEvent.click).chatWindow :=
  ⟨Step.event ⟨[⟨Role.user, "x"⟩], "y", 1, []⟩ UIEvent.click,
    panel_append_only ⟨[⟨Role.user, "x"⟩], "y", 1, []⟩ _
      (Step.event ⟨[⟨Role.user, "x"⟩], "y", 1, []⟩ UIEvent.click)⟩

/-- **C6.** After every non-empty submission the input field is empty and
the panel's scroll offset equals its maximum; after the corresponding
assistant message is appended by the submission's own timer, the scroll
offset again equals the maximum. -/
theorem submit_clears_and_scrolls (st : ChatState)
    (h : jsTrim st.userInput ≠ "") :
    (sendMessage st).userInput = ""
    ∧ (sendMessage st).scrollTop = maxScroll (sendMessage st)
    ∧ (fireTimer (sendMessage st) st.timers.length).scrollTop
        = maxScroll (fireTimer (sendMessage st) st.timers.length) := by
  have hs := sendMessage_of_ne st h
  have hget : (sendMessage st).timers[st.timers.length]?
      = some ⟨1000, jsTrim st.userInput⟩ := by
    rw [hs]
    exact List.getElem?_concat_length _ _
  have hf := fireTimer_of_getElem? (sendMessage st) st.timers.length _ hget
  refine ⟨by rw [hs], by rw [hs]; rfl, by rw [hf]; rfl⟩

theorem submit_clears_and_scrolls_witness :
    jsTrim "hi" ≠ ""
    ∧ ((sendMessage ⟨[], "hi", 0, []⟩).userInput = ""
      ∧ (sendMessage ⟨[], "hi", 0, []⟩).scrollTop
          = maxScroll (sendMessage ⟨[], "hi", 0, []⟩)
      ∧ (fireTimer (sendMessage ⟨[], "hi", 0, []⟩)
            (List.length ([] : List PendingTimer))).scrollTop
          = maxScroll (fireTimer (sendMessage ⟨[], "hi", 0, []⟩)
              (List.length ([] : List PendingTimer)))) :=
  ⟨by decide, submit_clears_and_scrolls ⟨[], "hi", 0, []⟩ (by decide)⟩

/-- **C7.** Submitting the same non-empty trimmed text twice (and letting
both timers fire) produces two independent user/assistant pairs — four
new messages in the panel, not a deduplicated single pair. -/
theorem duplicate_submission_not_deduplicated (st : ChatState) (t : String)
    (ht : jsTrim t = t) (ht' : t ≠ "") :
    (fireTimer (fireTimer (sendMessage (setInput (sendMessage (setInput st t)) t))
          st.timers.length) st.timers.length).chatWindow
        = st.chatWindow ++ [⟨Role.user, t⟩, ⟨Role.user, t⟩,
            ⟨Role.assistant, aiResponseText t⟩, ⟨Role.assistant, aiResponseText t⟩]
    ∧ (fireTimer (fireTimer (sendMessage (setInput (sendMessage (setInput st t)) t))
          st.timers.length) st.timers.length).chatWindow.length
        = st.chatWindow.length + 4 := by
  have h := double_submission_effects (setInput st t) t t
    (by rw [setInput_userInput]; exact ht) ht' ht ht'
  have h4 := h.2.2.2
  rw [setInput_chatWindow, setInput_timers] at h4
  exact ⟨h4, by rw [h4]; simp⟩

theorem duplicate_submission_not_deduplicated_witness :
    (jsTrim "hey" = "hey" ∧ ("hey" : String) ≠ "")
    ∧ ((fireTimer (fireTimer
            (sendMessage (setInput (sendMessage (setInput ⟨[], "", 0, []⟩ "hey")) "hey"))
            (List.length ([] : List PendingTimer)))
            (List.length ([] : List PendingTimer))).chatWindow
          = [] ++ [⟨Role.user, "hey"⟩, ⟨Role.user, "hey"⟩,
              ⟨Role.assistant, aiResponseText "hey"⟩,
              ⟨Role.assistant, aiResponseText "hey"⟩]
      ∧ (fireTimer (fireTimer
            (sendMessage (setInput (sendMessage (setInput ⟨[], "", 0, []⟩ "hey")) "hey"))
            (List.length ([] : List PendingTimer)))
            (List.length ([] : List PendingTimer))).chatWindow.length
          = List.length ([] : List Message) + 4) :=
  ⟨⟨by decide, by decide⟩,
    duplicate_submission_not_deduplicated ⟨[], "", 0, []⟩ "hey" (by decide) (by decide)⟩

/-- Appending one message changes a role's count by one exactly when the
appended message has that role. -/
theorem countRole_append_singleton (r : Role) (msgs : List Message) (m : Message) :
    countRole r (msgs ++ [m])
      = countRole r msgs + if m.role == r then 1 else 0 := by
  rcases m with ⟨mr, mt⟩
  cases mr <;> cases r <;> simp [countRole, List.filter_append]

/-- Count bookkeeping along every reachable state: pending timers make up
exactly the difference between user and assistant messages. -/
theorem reachable_counts (st : ChatState) (h : Reachable st) :
    countRole Role.assistant st.chatWindow + st.timers.length
      = countRole Role.user st.chatWindow := by
  induction h with
  | init => rfl
  | step h1 h2 ih =>
    rename_i stA stB
    have hsend : countRole Role.assistant (sendMessage stA).chatWindow
        + (sendMessage stA).timers.length
        = countRole Role.user (sendMessage stA).chatWindow := by
      by_cases he : jsTrim stA.userInput = ""
      · rw [sendMessage_of_eq stA he]
        exact ih
      · rw [sendMessage_of_ne stA he]
        have h1 := countRole_append_singleton Role.assistant stA.chatWindow
          ⟨Role.user, jsTrim stA.userInput⟩
        have h2 := countRole_append_singleton Role.user stA.chatWindow
          ⟨Role.user, jsTrim stA.userInput⟩
        simp at h1 h2
        rw [h1, h2, List.length_append]
        simp only [List.length_cons, List.length_nil]
        omega
    cases h2 with
    | event e =>
      cases e with
      | click => exact hsend
      | keyEvent k =>
        by_cases hk : k = "Enter"
        · subst hk
          exact hsend
        · simpa [dispatch, hk] using ih
    | fire i =>
      cases hg : stA.timers[i]? with
      | none =>
        rw [fireTimer_of_none stA i hg]
        exact ih
      | some t =>
        rw [fireTimer_of_getElem? stA i t hg]
        have hi : i < stA.timers.length := (List.getElem?_eq_some.mp hg).1
        have h1 := countRole_append_singleton Role.assistant stA.chatWindow
          ⟨Role.assistant, aiResponseText t.capturedText⟩
        have h2 := countRole_append_singleton Role.user stA.chatWindow
          ⟨Role.assistant, aiResponseText t.capturedText⟩
        simp at h1 h2
        rw [h1, h2, List.length_eraseIdx, if_pos hi]
        omega
    | typeInput s =>
      simpa [setInput] using ih

/-- **C8.** In every reachable state, the number of assistant-role
messages in the panel is at most the number of user-role messages: an
assistant append only happens via a timer scheduled by a submit that
already appended a user message. -/
theorem assistant_count_le_user_count (st : ChatState) (h : Reachable st) :
    countRole Role.assistant st.chatWindow
      ≤ countRole Role.user st.chatWindow := by
  have hc := reachable_counts st h
  omega

theorem assistant_count_le_user_count_witness :
    Reachable initialState
    ∧ countRole Role.assistant initialState.chatWindow
        ≤ countRole Role.user initialState.chatWindow :=
  ⟨Reachable.init,
    assistant_count_le_user_count initialState Reachable.init⟩

/-- **C9.** There is a non-empty trimmed input (here `<b>x</b>`) for
which the rendered message's text content differs from the submitted
string: the text is interpolated unescaped into the div's `innerHTML`, so
markup in the input is parsed as markup rather than shown. -/
theorem unescaped_markup_changes_rendered_text :
    ∃ s : String, jsTrim s = s ∧ s ≠ ""
      ∧ (sendMessage ⟨[], s, 0, []⟩).chatWindow = [⟨Role.user, s⟩]
      ∧ textContent (messageInnerHTML s) ≠ s :=
  ⟨"<b>x</b>", by decide, by decide, by decide, by decide⟩

/-- What one submission and its own timer append, as a function of the
trimmed input text alone. -/
theorem submitAppends_eq (st : ChatState) :
    submitAppends st =
      if jsTrim st.userInput = "" then []
      else [⟨Role.user, jsTrim st.userInput⟩,
        ⟨Role.assistant, aiResponseText (jsTrim st.userInput)⟩] := by
  by_cases h : jsTrim st.userInput = ""
  · rw [if_pos h]
    unfold submitAppends
    rw [sendMessage_of_eq st h,
      fireTimer_of_none st st.timers.length (List.getElem?_eq_none (Nat.le_refl _)),
      List.drop_length]
  · rw [if_neg h]
    unfold submitAppends
    have hs := sendMessage_of_ne st h
    have hget : (sendMessage st).timers[st.timers.length]?
        = some ⟨1000, jsTrim st.userInput⟩ := by
      rw [hs]
      exact List.getElem?_concat_length _ _
    have hf := fireTimer_of_getElem? (sendMessage st) st.timers.length _ hget
    rw [hf, hs]
    simp only [List.append_assoc, List.singleton_append, List.drop_left]

/-- The input-field value `sendMessage` leaves behind, as a function of
the trimmed input text alone. -/
theorem sendMessage_userInput (st : ChatState) :
    (sendMessage st).userInput
      = if jsTrim st.userInput = "" then st.userInput else "" := by
  by_cases h : jsTrim st.userInput = ""
  · rw [sendMessage_of_eq st h, if_pos h]
  · rw [sendMessage_of_ne st h, if_neg h]

/-- **C10.** Submit is deterministic: two runs starting from states that
agree on the panel contents and the input-field value append identical
message sequences (the user message plus its timer's assistant message)
and end with identical input-field values. -/
theorem submit_deterministic (st₁ st₂ : ChatState)
    (_hw : st₁.chatWindow = st₂.chatWindow)
    (hi : st₁.userInput = st₂.userInput) :
    submitAppends st₁ = submitAppends st₂
    ∧ (sendMessage st₁).userInput = (sendMessage st₂).userInput := by
  constructor
  · rw [submitAppends_eq, submitAppends_eq, hi]
  · rw [sendMessage_userInput, sendMessage_userInput, hi]

theorem submit_deterministic_witness :
    ((⟨[], "hi", 0, []⟩ : ChatState).chatWindow
        = (⟨[], "hi", 7, [⟨1000, "z"⟩]⟩ : ChatState).chatWindow
      ∧ (⟨[], "hi", 0, []⟩ : ChatState).userInput
        = (⟨[], "hi", 7, [⟨1000, "z"⟩]⟩ : ChatState).userInput)
    ∧ (submitAppends ⟨[], "hi", 0, []⟩
          = submitAppends ⟨[], "hi", 7, [⟨1000, "z"⟩]⟩
      ∧ (sendMessage ⟨[], "hi", 0, []⟩).userInput
          = (sendMessage ⟨[], "hi", 7, [⟨1000, "z"⟩]⟩).userInput) :=
  ⟨⟨rfl, rfl⟩, submit_deterministic ⟨[], "hi", 0, []⟩ ⟨[], "hi", 7, [⟨1000, "z"⟩]⟩ rfl rfl⟩

end EduMentor
